import Mathlib

/-!
Verification of the contact-form component in `src/src/App.jsx`.

The component holds six pieces of React state (`name`, `email`, `message`,
`isPolishing`, `isSubmitting`, `status`) and two async handlers:

* `handleAiPolish` (lines 16–45): guards on a blank message and on a missing
  API key, then calls the generative-text service and, on a non-empty
  response, replaces the message with the trimmed response.
* `handleSubmit` (lines 47–88): validates the three fields, writes a document
  to the `"messages"` collection, then sends an email, then resets the form.

Each handler is embedded as a pure function returning the ordered list of
observable steps it performs: React state-setter invocations and outbound
calls.  The external services are oracles passed in as `Except`-valued
functions; `new Date().toISOString()` is modelled by a `nowIso : String`
parameter standing for the ISO-8601 rendering of the current time.
`runEvents` folds the state-setter events over a form state, yielding the
state after the handler completes (outbound-call events do not change local
state).
-/

namespace ContactForm

/-- Status message shape `{ type, text }` passed to `setStatus` in App.jsx;
`type` is `"success"` or `"error"`. -/
structure StatusMessage where
  type : String
  text : String
deriving Repr, DecidableEq

/-- The six `useState` cells of App.jsx lines 9–14, with their initial
values given by `initialState` below. -/
structure FormState where
  name : String
  email : String
  message : String
  isPolishing : Bool
  isSubmitting : Bool
  status : Option StatusMessage
deriving Repr, DecidableEq

/-- Initial component state (App.jsx lines 9–14). -/
def initialState : FormState :=
  { name := "", email := "", message := "", isPolishing := false,
    isSubmitting := false, status := none }

/-- A JavaScript error value as observed by the `catch` blocks.  The
`message` field models `err.message`; an error whose `message` property is
absent or the empty string is modelled as `message = ""` (both are falsy
under `err.message || fallback`). -/
structure JsError where
  message : String
deriving Repr, DecidableEq

/-- JavaScript `a || b` restricted to strings: the empty string is falsy. -/
def jsOr (a b : String) : String := if a = "" then b else a

/-- JavaScript `String.prototype.trim()`: strips leading and trailing
whitespace.  Stated by structural recursion over the character list so that
concrete instances reduce; the whitespace class is space, tab, carriage
return, and newline (`Char.isWhitespace`). -/
def jsTrim (s : String) : String :=
  ⟨((s.data.dropWhile Char.isWhitespace).reverse.dropWhile Char.isWhitespace).reverse⟩

/-- Shape of the document passed to `addDoc` (App.jsx lines 60–65). -/
structure StoreDoc where
  name : String
  email : String
  message : String
  createdAt : String
deriving Repr, DecidableEq

/-- Template variables passed to `emailjs.send` (App.jsx lines 71–75). -/
structure EmailParams where
  from_name : String
  from_email : String
  message : String
deriving Repr, DecidableEq

/-- The `import.meta.env` variables read by App.jsx.  A variable that is
undefined in the environment is modelled as `""`: both are falsy, which is
all the code ever tests (`if (!apiKey)`). -/
structure Env where
  VITE_GOOGLE_GENERATIVE_AI_API_KEY : String
  VITE_EMAILJS_SERVICE_ID : String
  VITE_EMAILJS_TEMPLATE_ID : String
  VITE_EMAILJS_PUBLIC_KEY : String
deriving Repr, DecidableEq

/-- One observable step of a handler: a React state-setter invocation or an
outbound call to one of the three external services. -/
inductive Event
  | setName (v : String)
  | setEmail (v : String)
  | setMessage (v : String)
  | setIsPolishing (b : Bool)
  | setIsSubmitting (b : Bool)
  | setStatus (v : Option StatusMessage)
  | genCall (model : String) (prompt : String)
  | storeCall (coll : String) (doc : StoreDoc)
  | emailCall (serviceId : String) (templateId : String)
      (params : EmailParams) (publicKey : String)
deriving Repr, DecidableEq

/-- Whether an event is the generative-text call (`model.generateContent`). -/
def Event.isGenCall : Event → Bool
  | .genCall _ _ => true
  | _ => false

/-- Whether an event is the document-store write (`addDoc`). -/
def Event.isStoreCall : Event → Bool
  | .storeCall _ _ => true
  | _ => false

/-- Whether an event is the email send (`emailjs.send`). -/
def Event.isEmailCall : Event → Bool
  | .emailCall _ _ _ _ => true
  | _ => false

/-- Effect of one event on the local form state: setter events update the
corresponding field (React `setX`); outbound-call events leave local state
unchanged. -/
def applyEvent (s : FormState) : Event → FormState
  | .setName v => { s with name := v }
  | .setEmail v => { s with email := v }
  | .setMessage v => { s with message := v }
  | .setIsPolishing b => { s with isPolishing := b }
  | .setIsSubmitting b => { s with isSubmitting := b }
  | .setStatus v => { s with status := v }
  | .genCall _ _ => s
  | .storeCall _ _ => s
  | .emailCall _ _ _ _ => s

/-- State after the event list of a handler has been applied in order. -/
def runEvents (s : FormState) (evs : List Event) : FormState :=
  evs.foldl applyEvent s

/-- Embedding of `handleAiPolish` (App.jsx lines 16–45).  `gen` is the
oracle for `model.generateContent(prompt)` followed by
`result.response.text()`: `.ok t` is a resolved call whose response text is
`t`, `.error e` a rejected call caught by the `catch` block.  The guard
`if (!message.trim()) return` is the blank check on line 17; the key check
is lines 20–23; the `finally` block always appends `setIsPolishing false`. -/
def handleAiPolish (env : Env) (gen : String → Except JsError String)
    (s : FormState) : List Event :=
  if jsTrim s.message = "" then []
  else
    let apiKey := env.VITE_GOOGLE_GENERATIVE_AI_API_KEY
    if apiKey = "" then
      [.setStatus (some ⟨"error", "AI API key not configured."⟩)]
    else
      let prompt :=
        "Rewrite the following text to be professional, polite, and concise: "
          ++ s.message
      [.setIsPolishing true, .setStatus none, .genCall "gemini-pro" prompt]
        ++ (match gen prompt with
            | .ok polishedText =>
                if polishedText ≠ "" then
                  [.setMessage (jsTrim polishedText),
                   .setStatus (some ⟨"success", "Message polished!"⟩)]
                else []
            | .error err =>
                [.setStatus (some ⟨"error", jsOr err.message "AI polish failed."⟩)])
        ++ [.setIsPolishing false]

/-- Embedding of `handleSubmit` (App.jsx lines 47–88).  `nowIso` models the
string `new Date().toISOString()`, i.e. the current time in ISO-8601 format;
`store` is the oracle for `addDoc` on the `"messages"` collection and
`email` the oracle for `emailjs.send`.  `e.preventDefault()` concerns only
browser navigation and has no counterpart in the state model.  Validation is
lines 50–53, the store write lines 60–65, the email send lines 68–77, the
success path lines 79–82, the `catch` line 84, the `finally` line 86. -/
def handleSubmit (env : Env) (nowIso : String)
    (store : StoreDoc → Except JsError Unit)
    (email : EmailParams → Except JsError Unit)
    (s : FormState) : List Event :=
  if jsTrim s.name = "" ∨ jsTrim s.email = "" ∨ jsTrim s.message = "" then
    [.setStatus (some ⟨"error", "Please fill in all fields."⟩)]
  else
    let doc : StoreDoc :=
      { name := jsTrim s.name, email := jsTrim s.email,
        message := jsTrim s.message, createdAt := nowIso }
    [.setIsSubmitting true, .setStatus none, .storeCall "messages" doc]
      ++ (match store doc with
          | .error err =>
              [.setStatus (some ⟨"error", jsOr err.message "Failed to send message."⟩)]
          | .ok _ =>
              let params : EmailParams :=
                { from_name := jsTrim s.name, from_email := jsTrim s.email,
                  message := jsTrim s.message }
              [.emailCall env.VITE_EMAILJS_SERVICE_ID env.VITE_EMAILJS_TEMPLATE_ID
                 params env.VITE_EMAILJS_PUBLIC_KEY]
                ++ (match email params with
                    | .error err =>
                        [.setStatus
                          (some ⟨"error", jsOr err.message "Failed to send message."⟩)]
                    | .ok _ =>
                        [.setStatus (some ⟨"success", "Message sent successfully!"⟩),
                         .setName "", .setEmail "", .setMessage ""]))
      ++ [.setIsSubmitting false]

/-- Running a concatenated event list runs the two parts in sequence. -/
theorem runEvents_append (s : FormState) (l₁ l₂ : List Event) :
    runEvents s (l₁ ++ l₂) = runEvents (runEvents s l₁) l₂ := by
  simp [runEvents, List.foldl_append]

/-- A trailing `setIsPolishing false` (the `finally` of `handleAiPolish`)
forces the flag regardless of what ran before. -/
theorem isPolishing_after_final (s : FormState) (l : List Event) :
    (runEvents s (l ++ [Event.setIsPolishing false])).isPolishing = false := by
  rw [runEvents_append]
  rfl

/-- A trailing `setIsSubmitting false` (the `finally` of `handleSubmit`)
forces the flag regardless of what ran before. -/
theorem isSubmitting_after_final (s : FormState) (l : List Event) :
    (runEvents s (l ++ [Event.setIsSubmitting false])).isSubmitting = false := by
  rw [runEvents_append]
  rfl

/-! ### Concrete fixtures used by witnesses and counterexamples -/

/-- Fully configured environment. -/
def envT : Env := ⟨"key", "svc", "tpl", "pub"⟩

/-- Environment with no generative-text API key. -/
def envNoKey : Env := ⟨"", "svc", "tpl", "pub"⟩

/-- A fixed ISO-8601 timestamp standing for the clock reading. -/
def nowT : String := "2024-01-01T00:00:00.000Z"

/-- Store oracle that resolves. -/
def okStore : StoreDoc → Except JsError Unit := fun _ => .ok ()

/-- Email oracle that resolves. -/
def okEmail : EmailParams → Except JsError Unit := fun _ => .ok ()

/-- Store oracle that rejects with an error carrying a message. -/
def failStoreBoom : StoreDoc → Except JsError Unit := fun _ => .error ⟨"boom"⟩

/-- Store oracle that rejects with an error carrying no message. -/
def failStoreNoMsg : StoreDoc → Except JsError Unit := fun _ => .error ⟨""⟩

/-- Email oracle that rejects with an error carrying a message. -/
def failEmailBoom : EmailParams → Except JsError Unit := fun _ => .error ⟨"boom"⟩

/-- Generative-text oracle that resolves with padded text. -/
def genOkT : String → Except JsError String := fun _ => .ok " Polished text. "

/-- Generative-text oracle that resolves with the empty string. -/
def genEmptyT : String → Except JsError String := fun _ => .ok ""

/-- Generative-text oracle that rejects with an error carrying no message. -/
def genFailNoMsg : String → Except JsError String := fun _ => .error ⟨""⟩

/-- Generative-text oracle that rejects with an error carrying a message. -/
def genFailBoom : String → Except JsError String := fun _ => .error ⟨"boom"⟩

/-- State with a whitespace-only name and the other fields filled. -/
def sBlankName : FormState :=
  { name := " ", email := "a@b.c", message := "hi", isPolishing := false,
    isSubmitting := false, status := none }

/-- State with all three fields non-blank (name and message padded). -/
def sFull : FormState :=
  { name := " Al ", email := "a@b.c", message := " hi ", isPolishing := false,
    isSubmitting := false, status := none }

/-- State with a blank message but both in-flight flags raised. -/
def sFlagsUp : FormState :=
  { name := "Al", email := "a@b.c", message := "", isPolishing := true,
    isSubmitting := true, status := none }

/-! ### Claim theorems -/

/-- Claim C1, counterexample to the exact status text: with a
whitespace-only name, `handleSubmit` sets the status text
`"Please fill in all fields."` (trailing period), not the claimed
`"Please fill in all fields"`. -/
theorem submit_blank_status_text_cx :
    jsTrim sBlankName.name = ""
      ∧ (runEvents sBlankName (handleSubmit envT nowT okStore okEmail sBlankName)).status
          ≠ some ⟨"error", "Please fill in all fields"⟩
      ∧ (runEvents sBlankName (handleSubmit envT nowT okStore okEmail sBlankName)).status
          = some ⟨"error", "Please fill in all fields."⟩ := by
  decide

/-- Claim C1 (amended: the status text carries a trailing period): if name,
email, or message is empty after trimming, `handleSubmit` emits only the
error-status update `"Please fill in all fields."` — no store write, no
email send — and leaves name, email, and message unchanged. -/
theorem submit_blank_aborts (env : Env) (nowIso : String)
    (store : StoreDoc → Except JsError Unit)
    (email : EmailParams → Except JsError Unit) (s : FormState)
    (h : jsTrim s.name = "" ∨ jsTrim s.email = "" ∨ jsTrim s.message = "") :
    handleSubmit env nowIso store email s
        = [Event.setStatus (some ⟨"error", "Please fill in all fields."⟩)]
      ∧ (handleSubmit env nowIso store email s).filter Event.isStoreCall = []
      ∧ (handleSubmit env nowIso store email s).filter Event.isEmailCall = []
      ∧ (runEvents s (handleSubmit env nowIso store email s)).name = s.name
      ∧ (runEvents s (handleSubmit env nowIso store email s)).email = s.email
      ∧ (runEvents s (handleSubmit env nowIso store email s)).message = s.message
      ∧ (runEvents s (handleSubmit env nowIso store email s)).status
          = some ⟨"error", "Please fill in all fields."⟩ := by
  have hevs : handleSubmit env nowIso store email s
      = [Event.setStatus (some ⟨"error", "Please fill in all fields."⟩)] := by
    unfold handleSubmit
    rw [if_pos h]
  rw [hevs]
  simp [runEvents, applyEvent, Event.isStoreCall, Event.isEmailCall]

/-- Claim C1, witness: `submit_blank_aborts` at the whitespace-only-name
fixture. -/
theorem submit_blank_aborts_w :
    handleSubmit envT nowT okStore okEmail sBlankName
        = [Event.setStatus (some ⟨"error", "Please fill in all fields."⟩)]
      ∧ (handleSubmit envT nowT okStore okEmail sBlankName).filter Event.isStoreCall = []
      ∧ (handleSubmit envT nowT okStore okEmail sBlankName).filter Event.isEmailCall = []
      ∧ (runEvents sBlankName (handleSubmit envT nowT okStore okEmail sBlankName)).name
          = sBlankName.name
      ∧ (runEvents sBlankName (handleSubmit envT nowT okStore okEmail sBlankName)).email
          = sBlankName.email
      ∧ (runEvents sBlankName (handleSubmit envT nowT okStore okEmail sBlankName)).message
          = sBlankName.message
      ∧ (runEvents sBlankName (handleSubmit envT nowT okStore okEmail sBlankName)).status
          = some ⟨"error", "Please fill in all fields."⟩ :=
  submit_blank_aborts envT nowT okStore okEmail sBlankName (by decide)

/-- Claim C2: with all three fields non-blank after trimming and both
outbound calls resolving, `handleSubmit` issues exactly one store write to
the `"messages"` collection carrying the trimmed fields and the ISO-8601
clock reading `nowIso` as `createdAt`, exactly one email send carrying the
trimmed fields, then resets the three fields to `""`, sets a success
status, and finishes with `isSubmitting = false`. -/
theorem submit_valid_success (env : Env) (nowIso : String)
    (store : StoreDoc → Except JsError Unit)
    (email : EmailParams → Except JsError Unit) (s : FormState)
    (hn : jsTrim s.name ≠ "") (he : jsTrim s.email ≠ "")
    (hm : jsTrim s.message ≠ "")
    (hst : store ⟨jsTrim s.name, jsTrim s.email, jsTrim s.message, nowIso⟩ = .ok ())
    (hem : email ⟨jsTrim s.name, jsTrim s.email, jsTrim s.message⟩ = .ok ()) :
    (handleSubmit env nowIso store email s).filter Event.isStoreCall
        = [Event.storeCall "messages"
            ⟨jsTrim s.name, jsTrim s.email, jsTrim s.message, nowIso⟩]
      ∧ (handleSubmit env nowIso store email s).filter Event.isEmailCall
        = [Event.emailCall env.VITE_EMAILJS_SERVICE_ID env.VITE_EMAILJS_TEMPLATE_ID
            ⟨jsTrim s.name, jsTrim s.email, jsTrim s.message⟩
            env.VITE_EMAILJS_PUBLIC_KEY]
      ∧ (runEvents s (handleSubmit env nowIso store email s)).name = ""
      ∧ (runEvents s (handleSubmit env nowIso store email s)).email = ""
      ∧ (runEvents s (handleSubmit env nowIso store email s)).message = ""
      ∧ (runEvents s (handleSubmit env nowIso store email s)).status
          = some ⟨"success", "Message sent successfully!"⟩
      ∧ (runEvents s (handleSubmit env nowIso store email s)).isSubmitting = false := by
  simp [handleSubmit, hn, he, hm, hst, hem, runEvents, applyEvent,
    Event.isStoreCall, Event.isEmailCall]

/-- Claim C2, witness: `submit_valid_success` at the filled fixture with
both oracles resolving. -/
theorem submit_valid_success_w :
    (handleSubmit envT nowT okStore okEmail sFull).filter Event.isStoreCall
        = [Event.storeCall "messages"
            ⟨jsTrim sFull.name, jsTrim sFull.email, jsTrim sFull.message, nowT⟩]
      ∧ (handleSubmit envT nowT okStore okEmail sFull).filter Event.isEmailCall
        = [Event.emailCall envT.VITE_EMAILJS_SERVICE_ID envT.VITE_EMAILJS_TEMPLATE_ID
            ⟨jsTrim sFull.name, jsTrim sFull.email, jsTrim sFull.message⟩
            envT.VITE_EMAILJS_PUBLIC_KEY]
      ∧ (runEvents sFull (handleSubmit envT nowT okStore okEmail sFull)).name = ""
      ∧ (runEvents sFull (handleSubmit envT nowT okStore okEmail sFull)).email = ""
      ∧ (runEvents sFull (handleSubmit envT nowT okStore okEmail sFull)).message = ""
      ∧ (runEvents sFull (handleSubmit envT nowT okStore okEmail sFull)).status
          = some ⟨"success", "Message sent successfully!"⟩
      ∧ (runEvents sFull (handleSubmit envT nowT okStore okEmail sFull)).isSubmitting
          = false :=
  submit_valid_success envT nowT okStore okEmail sFull
    (by decide) (by decide) (by decide) rfl rfl

/-- Claim C3: once validation passes, the store write to `"messages"` is
always attempted, no email send ever precedes it in the event order, and if
the store oracle rejects then no email send occurs at all in that
invocation. -/
theorem submit_store_before_email (env : Env) (nowIso : String)
    (store : StoreDoc → Except JsError Unit)
    (email : EmailParams → Except JsError Unit) (s : FormState)
    (hn : jsTrim s.name ≠ "") (he : jsTrim s.email ≠ "")
    (hm : jsTrim s.message ≠ "") :
    (handleSubmit env nowIso store email s).filter Event.isStoreCall
        = [Event.storeCall "messages"
            ⟨jsTrim s.name, jsTrim s.email, jsTrim s.message, nowIso⟩]
      ∧ ((handleSubmit env nowIso store email s).takeWhile
            (fun e => !e.isStoreCall)).filter Event.isEmailCall = []
      ∧ ∀ err,
          store ⟨jsTrim s.name, jsTrim s.email, jsTrim s.message, nowIso⟩
              = .error err →
            (handleSubmit env nowIso store email s).filter Event.isEmailCall
              = [] := by
  cases hst : store ⟨jsTrim s.name, jsTrim s.email, jsTrim s.message, nowIso⟩ with
  | error err =>
      refine ⟨?_, ?_, ?_⟩ <;>
        simp [handleSubmit, hn, he, hm, hst,
          Event.isStoreCall, Event.isEmailCall, List.takeWhile]
  | ok u =>
      cases u
      cases hem : email ⟨jsTrim s.name, jsTrim s.email, jsTrim s.message⟩ with
      | error err =>
          refine ⟨?_, ?_, ?_⟩ <;>
            simp [handleSubmit, hn, he, hm, hst, hem,
              Event.isStoreCall, Event.isEmailCall, List.takeWhile]
      | ok u =>
          cases u
          refine ⟨?_, ?_, ?_⟩ <;>
            simp [handleSubmit, hn, he, hm, hst, hem,
              Event.isStoreCall, Event.isEmailCall, List.takeWhile]

/-- Claim C3, witness: `submit_store_before_email` at the filled fixture
with the store oracle rejecting, exercising the no-email conjunct. -/
theorem submit_store_before_email_w :
    (handleSubmit envT nowT failStoreBoom okEmail sFull).filter Event.isStoreCall
        = [Event.storeCall "messages"
            ⟨jsTrim sFull.name, jsTrim sFull.email, jsTrim sFull.message, nowT⟩]
      ∧ ((handleSubmit envT nowT failStoreBoom okEmail sFull).takeWhile
            (fun e => !e.isStoreCall)).filter Event.isEmailCall = []
      ∧ (handleSubmit envT nowT failStoreBoom okEmail sFull).filter
            Event.isEmailCall = [] := by
  have h := submit_store_before_email envT nowT failStoreBoom okEmail sFull
    (by decide) (by decide) (by decide)
  exact ⟨h.1, h.2.1, h.2.2 ⟨"boom"⟩ rfl⟩

/-- Claim C4, counterexample to the exact fallback text: when the store
oracle rejects with an error carrying no message, the status text is
`"Failed to send message."` (trailing period), not the claimed
`"Failed to send message"`. -/
theorem submit_fallback_text_cx :
    jsTrim sFull.name ≠ "" ∧ jsTrim sFull.email ≠ "" ∧ jsTrim sFull.message ≠ ""
      ∧ (runEvents sFull (handleSubmit envT nowT failStoreNoMsg okEmail sFull)).status
          ≠ some ⟨"error", "Failed to send message"⟩
      ∧ (runEvents sFull (handleSubmit envT nowT failStoreNoMsg okEmail sFull)).status
          = some ⟨"error", "Failed to send message."⟩ := by
  decide

/-- Claim C4 (amended: the fallback text carries a trailing period): when
the store write or the email send rejects, `handleSubmit` sets an error
status whose text is the message of the thrown error, falling back to
`"Failed to send message."` when that message is empty; name, email, and
message are not reset, and a store write that already succeeded stays in
the trace — nothing compensates it. -/
theorem submit_failure_no_reset (env : Env) (nowIso : String)
    (store : StoreDoc → Except JsError Unit)
    (email : EmailParams → Except JsError Unit) (s : FormState)
    (hn : jsTrim s.name ≠ "") (he : jsTrim s.email ≠ "")
    (hm : jsTrim s.message ≠ "") :
    (∀ err,
        store ⟨jsTrim s.name, jsTrim s.email, jsTrim s.message, nowIso⟩
            = .error err →
          (runEvents s (handleSubmit env nowIso store email s)).status
              = some ⟨"error", jsOr err.message "Failed to send message."⟩
            ∧ (runEvents s (handleSubmit env nowIso store email s)).name = s.name
            ∧ (runEvents s (handleSubmit env nowIso store email s)).email = s.email
            ∧ (runEvents s (handleSubmit env nowIso store email s)).message
                = s.message)
      ∧ ∀ err,
          store ⟨jsTrim s.name, jsTrim s.email, jsTrim s.message, nowIso⟩ = .ok () →
          email ⟨jsTrim s.name, jsTrim s.email, jsTrim s.message⟩ = .error err →
            (runEvents s (handleSubmit env nowIso store email s)).status
                = some ⟨"error", jsOr err.message "Failed to send message."⟩
              ∧ (runEvents s (handleSubmit env nowIso store email s)).name = s.name
              ∧ (runEvents s (handleSubmit env nowIso store email s)).email = s.email
              ∧ (runEvents s (handleSubmit env nowIso store email s)).message
                  = s.message
              ∧ (handleSubmit env nowIso store email s).filter Event.isStoreCall
                  = [Event.storeCall "messages"
                      ⟨jsTrim s.name, jsTrim s.email, jsTrim s.message, nowIso⟩] := by
  constructor
  · intro err hst
    simp [handleSubmit, hn, he, hm, hst, runEvents, applyEvent]
  · intro err hst hem
    simp [handleSubmit, hn, he, hm, hst, hem, runEvents, applyEvent,
      Event.isStoreCall]

/-- Claim C4, witness: `submit_failure_no_reset` at the filled fixture, once
with the store oracle rejecting with message `"boom"` and once with the
store resolving and the email oracle rejecting with message `"boom"`. -/
theorem submit_failure_no_reset_w :
    ((runEvents sFull (handleSubmit envT nowT failStoreBoom okEmail sFull)).status
          = some ⟨"error", jsOr "boom" "Failed to send message."⟩
        ∧ (runEvents sFull (handleSubmit envT nowT failStoreBoom okEmail sFull)).name
            = sFull.name
        ∧ (runEvents sFull (handleSubmit envT nowT failStoreBoom okEmail sFull)).email
            = sFull.email
        ∧ (runEvents sFull (handleSubmit envT nowT failStoreBoom okEmail sFull)).message
            = sFull.message)
      ∧ ((runEvents sFull (handleSubmit envT nowT okStore failEmailBoom sFull)).status
          = some ⟨"error", jsOr "boom" "Failed to send message."⟩
        ∧ (runEvents sFull (handleSubmit envT nowT okStore failEmailBoom sFull)).name
            = sFull.name
        ∧ (runEvents sFull (handleSubmit envT nowT okStore failEmailBoom sFull)).email
            = sFull.email
        ∧ (runEvents sFull (handleSubmit envT nowT okStore failEmailBoom sFull)).message
            = sFull.message
        ∧ (handleSubmit envT nowT okStore failEmailBoom sFull).filter
              Event.isStoreCall
            = [Event.storeCall "messages"
                ⟨jsTrim sFull.name, jsTrim sFull.email, jsTrim sFull.message, nowT⟩]) :=
  ⟨(submit_failure_no_reset envT nowT failStoreBoom okEmail sFull
      (by decide) (by decide) (by decide)).1 ⟨"boom"⟩ rfl,
   (submit_failure_no_reset envT nowT okStore failEmailBoom sFull
      (by decide) (by decide) (by decide)).2 ⟨"boom"⟩ rfl rfl⟩

/-- Claim C5, counterexample: the early-return exits do not clear the
flags.  With the message blank and both flags raised on entry,
`handleAiPolish` returns before its `try` block, leaving
`isPolishing = true`, and `handleSubmit` fails validation, leaving
`isSubmitting = true`. -/
theorem inflight_flags_early_return_cx :
    (runEvents sFlagsUp (handleAiPolish envT genOkT sFlagsUp)).isPolishing = true
      ∧ (runEvents sFlagsUp
            (handleSubmit envT nowT okStore okEmail sFlagsUp)).isSubmitting
          = true := by
  decide

/-- Claim C5 (amended: only the exit paths that pass the initial guards —
success or caught remote error — clear the flag unconditionally, via the
trailing `finally` step; early returns leave every flag unchanged, so each
flag is false after any invocation it was false before): for
`handleAiPolish` the flag is `isPolishing`, for `handleSubmit` it is
`isSubmitting`. -/
theorem inflight_flags_cleared (env : Env)
    (gen : String → Except JsError String) (nowIso : String)
    (store : StoreDoc → Except JsError Unit)
    (email : EmailParams → Except JsError Unit) (s : FormState) :
    (s.isPolishing = false →
        (runEvents s (handleAiPolish env gen s)).isPolishing = false)
      ∧ (s.isSubmitting = false →
        (runEvents s (handleSubmit env nowIso store email s)).isSubmitting = false)
      ∧ (jsTrim s.message ≠ "" → env.VITE_GOOGLE_GENERATIVE_AI_API_KEY ≠ "" →
        (runEvents s (handleAiPolish env gen s)).isPolishing = false)
      ∧ ((jsTrim s.name ≠ "" ∧ jsTrim s.email ≠ "" ∧ jsTrim s.message ≠ "") →
        (runEvents s (handleSubmit env nowIso store email s)).isSubmitting
          = false) := by
  have hpolish : jsTrim s.message ≠ "" →
      env.VITE_GOOGLE_GENERATIVE_AI_API_KEY ≠ "" →
      (runEvents s (handleAiPolish env gen s)).isPolishing = false := by
    intro hm hk
    unfold handleAiPolish
    rw [if_neg hm]
    simp only []
    rw [if_neg hk]
    exact isPolishing_after_final s _
  have hsubmit : (jsTrim s.name ≠ "" ∧ jsTrim s.email ≠ "" ∧ jsTrim s.message ≠ "") →
      (runEvents s (handleSubmit env nowIso store email s)).isSubmitting = false := by
    rintro ⟨hn, he, hm⟩
    unfold handleSubmit
    rw [if_neg (by simp [hn, he, hm])]
    simp only []
    exact isSubmitting_after_final s _
  refine ⟨?_, ?_, hpolish, hsubmit⟩
  · intro h0
    by_cases hm : jsTrim s.message = ""
    · simp [handleAiPolish, hm, runEvents, h0]
    · by_cases hk : env.VITE_GOOGLE_GENERATIVE_AI_API_KEY = ""
      · simp [handleAiPolish, hm, hk, runEvents, applyEvent, h0]
      · exact hpolish hm hk
  · intro h0
    by_cases hv : jsTrim s.name = "" ∨ jsTrim s.email = "" ∨ jsTrim s.message = ""
    · simp [handleSubmit, hv, runEvents, applyEvent, h0]
    · push_neg at hv
      exact hsubmit ⟨hv.1, hv.2.1, hv.2.2⟩

/-- Claim C5, witness: `inflight_flags_cleared` at the filled fixture
(flags down on entry, guards pass) for all four conjuncts. -/
theorem inflight_flags_cleared_w :
    (runEvents sFull (handleAiPolish envT genOkT sFull)).isPolishing = false
      ∧ (runEvents sFull (handleSubmit envT nowT okStore okEmail sFull)).isSubmitting
          = false
      ∧ (runEvents sFull (handleAiPolish envT genOkT sFull)).isPolishing = false
      ∧ (runEvents sFull (handleSubmit envT nowT okStore okEmail sFull)).isSubmitting
          = false := by
  have h := inflight_flags_cleared envT genOkT nowT okStore okEmail sFull
  exact ⟨h.1 rfl, h.2.1 rfl, h.2.2.1 (by decide) (by decide),
    h.2.2.2 ⟨by decide, by decide, by decide⟩⟩

/-- Claim C6: with a blank (empty or whitespace-only) message,
`handleAiPolish` emits no event at all — in particular no remote call — and
the state is unchanged. -/
theorem polish_blank_noop (env : Env) (gen : String → Except JsError String)
    (s : FormState) (h : jsTrim s.message = "") :
    handleAiPolish env gen s = []
      ∧ runEvents s (handleAiPolish env gen s) = s := by
  have hevs : handleAiPolish env gen s = [] := by
    unfold handleAiPolish
    rw [if_pos h]
  rw [hevs]
  exact ⟨rfl, rfl⟩

/-- Claim C6, witness: `polish_blank_noop` at the blank-message fixture with
both flags raised. -/
theorem polish_blank_noop_w :
    handleAiPolish envT genOkT sFlagsUp = []
      ∧ runEvents sFlagsUp (handleAiPolish envT genOkT sFlagsUp) = sFlagsUp :=
  polish_blank_noop envT genOkT sFlagsUp (by decide)

/-- Claim C7, counterexample to the exact status text: with no API key the
status text is `"AI API key not configured."` (trailing period), not the
claimed `"AI API key not configured"`. -/
theorem polish_no_key_text_cx :
    jsTrim sFull.message ≠ ""
      ∧ envNoKey.VITE_GOOGLE_GENERATIVE_AI_API_KEY = ""
      ∧ (runEvents sFull (handleAiPolish envNoKey genOkT sFull)).status
          ≠ some ⟨"error", "AI API key not configured"⟩
      ∧ (runEvents sFull (handleAiPolish envNoKey genOkT sFull)).status
          = some ⟨"error", "AI API key not configured."⟩ := by
  decide

/-- Claim C7 (amended: the status text carries a trailing period): with a
non-blank message and no API key configured, `handleAiPolish` emits only
the error-status update `"AI API key not configured."` — no remote call —
leaving name, email, message, and both flags unchanged. -/
theorem polish_no_key (env : Env) (gen : String → Except JsError String)
    (s : FormState) (hm : jsTrim s.message ≠ "")
    (hk : env.VITE_GOOGLE_GENERATIVE_AI_API_KEY = "") :
    handleAiPolish env gen s
        = [Event.setStatus (some ⟨"error", "AI API key not configured."⟩)]
      ∧ (handleAiPolish env gen s).filter Event.isGenCall = []
      ∧ (runEvents s (handleAiPolish env gen s)).name = s.name
      ∧ (runEvents s (handleAiPolish env gen s)).email = s.email
      ∧ (runEvents s (handleAiPolish env gen s)).message = s.message
      ∧ (runEvents s (handleAiPolish env gen s)).isPolishing = s.isPolishing
      ∧ (runEvents s (handleAiPolish env gen s)).isSubmitting = s.isSubmitting
      ∧ (runEvents s (handleAiPolish env gen s)).status
          = some ⟨"error", "AI API key not configured."⟩ := by
  have hevs : handleAiPolish env gen s
      = [Event.setStatus (some ⟨"error", "AI API key not configured."⟩)] := by
    unfold handleAiPolish
    rw [if_neg hm]
    simp only []
    rw [if_pos hk]
  rw [hevs]
  simp [runEvents, applyEvent, Event.isGenCall]

/-- Claim C7, witness: `polish_no_key` at the filled fixture under the
keyless environment. -/
theorem polish_no_key_w :
    handleAiPolish envNoKey genOkT sFull
        = [Event.setStatus (some ⟨"error", "AI API key not configured."⟩)]
      ∧ (handleAiPolish envNoKey genOkT sFull).filter Event.isGenCall = []
      ∧ (runEvents sFull (handleAiPolish envNoKey genOkT sFull)).name = sFull.name
      ∧ (runEvents sFull (handleAiPolish envNoKey genOkT sFull)).email = sFull.email
      ∧ (runEvents sFull (handleAiPolish envNoKey genOkT sFull)).message
          = sFull.message
      ∧ (runEvents sFull (handleAiPolish envNoKey genOkT sFull)).isPolishing
          = sFull.isPolishing
      ∧ (runEvents sFull (handleAiPolish envNoKey genOkT sFull)).isSubmitting
          = sFull.isSubmitting
      ∧ (runEvents sFull (handleAiPolish envNoKey genOkT sFull)).status
          = some ⟨"error", "AI API key not configured."⟩ :=
  polish_no_key envNoKey genOkT sFull (by decide) rfl

/-- Claim C8: with a non-blank message and a configured key,
`handleAiPolish` first sets `isPolishing` to true and clears the status,
then issues exactly one generative-text call whose prompt is the fixed
instruction concatenated with the current message, and on a non-empty
response text replaces the message with the trimmed response and sets a
success status. -/
theorem polish_success (env : Env) (gen : String → Except JsError String)
    (s : FormState) (hm : jsTrim s.message ≠ "")
    (hk : env.VITE_GOOGLE_GENERATIVE_AI_API_KEY ≠ "") :
    (handleAiPolish env gen s).take 3
        = [Event.setIsPolishing true, Event.setStatus none,
           Event.genCall "gemini-pro"
             ("Rewrite the following text to be professional, polite, and concise: "
               ++ s.message)]
      ∧ (handleAiPolish env gen s).filter Event.isGenCall
        = [Event.genCall "gemini-pro"
            ("Rewrite the following text to be professional, polite, and concise: "
              ++ s.message)]
      ∧ ∀ t,
          gen ("Rewrite the following text to be professional, polite, and concise: "
              ++ s.message) = .ok t → t ≠ "" →
            (runEvents s (handleAiPolish env gen s)).message = jsTrim t
              ∧ (runEvents s (handleAiPolish env gen s)).status
                  = some ⟨"success", "Message polished!"⟩ := by
  cases hg : gen ("Rewrite the following text to be professional, polite, and concise: "
      ++ s.message) with
  | ok t =>
      by_cases ht : t = ""
      · subst ht
        refine ⟨?_, ?_, ?_⟩ <;>
          simp [handleAiPolish, hm, hk, hg, runEvents, applyEvent, Event.isGenCall]
      · refine ⟨?_, ?_, ?_⟩ <;>
          simp [handleAiPolish, hm, hk, hg, ht, runEvents, applyEvent, Event.isGenCall]
  | error err =>
      refine ⟨?_, ?_, ?_⟩ <;>
        simp [handleAiPolish, hm, hk, hg, runEvents, applyEvent, Event.isGenCall]

/-- Claim C8, witness: `polish_success` at the filled fixture with the
oracle resolving to padded text. -/
theorem polish_success_w :
    (handleAiPolish envT genOkT sFull).take 3
        = [Event.setIsPolishing true, Event.setStatus none,
           Event.genCall "gemini-pro"
             ("Rewrite the following text to be professional, polite, and concise: "
               ++ sFull.message)]
      ∧ (handleAiPolish envT genOkT sFull).filter Event.isGenCall
        = [Event.genCall "gemini-pro"
            ("Rewrite the following text to be professional, polite, and concise: "
              ++ sFull.message)]
      ∧ (runEvents sFull (handleAiPolish envT genOkT sFull)).message
          = jsTrim " Polished text. "
      ∧ (runEvents sFull (handleAiPolish envT genOkT sFull)).status
          = some ⟨"success", "Message polished!"⟩ := by
  have h := polish_success envT genOkT sFull (by decide) (by decide)
  exact ⟨h.1, h.2.1, (h.2.2 " Polished text. " rfl (by decide)).1,
    (h.2.2 " Polished text. " rfl (by decide)).2⟩

/-- Claim C9, counterexample to the exact fallback text: when the remote
call rejects with an error carrying no message, the status text is
`"AI polish failed."` (trailing period), not the claimed
`"AI polish failed"`. -/
theorem polish_error_fallback_cx :
    jsTrim sFull.message ≠ ""
      ∧ envT.VITE_GOOGLE_GENERATIVE_AI_API_KEY ≠ ""
      ∧ (runEvents sFull (handleAiPolish envT genFailNoMsg sFull)).status
          ≠ some ⟨"error", "AI polish failed"⟩
      ∧ (runEvents sFull (handleAiPolish envT genFailNoMsg sFull)).status
          = some ⟨"error", "AI polish failed."⟩ := by
  decide

/-- Claim C9 (amended: the fallback text carries a trailing period): when
the remote generative-text call rejects, `handleAiPolish` sets an error
status whose text is the message of the thrown error, falling back to
`"AI polish failed."` when that message is empty, and leaves the message
field unchanged. -/
theorem polish_remote_error (env : Env) (gen : String → Except JsError String)
    (s : FormState) (err : JsError) (hm : jsTrim s.message ≠ "")
    (hk : env.VITE_GOOGLE_GENERATIVE_AI_API_KEY ≠ "")
    (hg : gen ("Rewrite the following text to be professional, polite, and concise: "
        ++ s.message) = .error err) :
    (runEvents s (handleAiPolish env gen s)).status
        = some ⟨"error", jsOr err.message "AI polish failed."⟩
      ∧ (runEvents s (handleAiPolish env gen s)).message = s.message := by
  simp [handleAiPolish, hm, hk, hg, runEvents, applyEvent]

/-- Claim C9, witness: `polish_remote_error` at the filled fixture with the
oracle rejecting with message `"boom"`. -/
theorem polish_remote_error_w :
    (runEvents sFull (handleAiPolish envT genFailBoom sFull)).status
        = some ⟨"error", jsOr "boom" "AI polish failed."⟩
      ∧ (runEvents sFull (handleAiPolish envT genFailBoom sFull)).message
          = sFull.message :=
  polish_remote_error envT genFailBoom sFull ⟨"boom"⟩ (by decide) (by decide) rfl

/-- Claim C10: with a non-blank message and a configured key, if the remote
call resolves with an empty response text, `handleAiPolish` leaves the
message unchanged, the status stays at the `none` it was cleared to at the
start of the action, and `isPolishing` finishes false. -/
theorem polish_empty_response (env : Env) (gen : String → Except JsError String)
    (s : FormState) (hm : jsTrim s.message ≠ "")
    (hk : env.VITE_GOOGLE_GENERATIVE_AI_API_KEY ≠ "")
    (hg : gen ("Rewrite the following text to be professional, polite, and concise: "
        ++ s.message) = .ok "") :
    (runEvents s (handleAiPolish env gen s)).message = s.message
      ∧ (runEvents s (handleAiPolish env gen s)).status = none
      ∧ (runEvents s (handleAiPolish env gen s)).isPolishing = false := by
  simp [handleAiPolish, hm, hk, hg, runEvents, applyEvent]

/-- Claim C10, witness: `polish_empty_response` at the filled fixture with
the oracle resolving to the empty string. -/
theorem polish_empty_response_w :
    (runEvents sFull (handleAiPolish envT genEmptyT sFull)).message
        = sFull.message
      ∧ (runEvents sFull (handleAiPolish envT genEmptyT sFull)).status = none
      ∧ (runEvents sFull (handleAiPolish envT genEmptyT sFull)).isPolishing
          = false :=
  polish_empty_response envT genEmptyT sFull (by decide) (by decide) rfl

end ContactForm
